import Mathlib

/-!
# Verification of the spatula page-scraping core

Shallow embedding of the spatula repository: the `Selector` cardinality
contract, the `Page` fetch lifecycle (source resolution, dependency
resolution, fetch and error dispatch), the `Workflow` pagination loop, and
the CLI `test` / `scrape` entry points from `src/spatula/cli.py`.

The selector, page and workflow implementations are not shipped in this
source snapshot (only their tests, the package declarations and the CLI
callers are), so those parts are modelled from the specification document;
each such definition is marked `Modelled from the spec:`.  The CLI entry
points are translated directly from `cli.py`.
-/

namespace Spatula

/-! ## Selector (modelled from the spec, §4.5) -/

/-- Which cardinality bound a selector error reports. -/
inductive CardinalityKind where
  | exact
  | minimum
  | maximum
deriving Repr, DecidableEq

/-- Modelled from the spec: `SelectorError` "carries expected vs. actual
count and the cardinality kind (exact/min/max) that was violated"
(`selectors.py` is missing from the snapshot). -/
structure SelectorError where
  kind : CardinalityKind
  expected : Nat
  actual : Nat
deriving Repr, DecidableEq

/-- Modelled from the spec: a `Selector` holds "a configured cardinality
policy: an exact count, a minimum, and/or a maximum (each independently
optional, independently overridable per invocation)". -/
structure Selector where
  num_items : Option Nat := none
  min_items : Option Nat := none
  max_items : Option Nat := none
deriving Repr, DecidableEq

/-- Modelled from the spec: effective bound = "per-call override if given,
else the selector's configured default, else unset". -/
def effectiveBound (override default : Option Nat) : Option Nat :=
  match override with
  | some k => some k
  | none => default

/-- Modelled from the spec: `Selector.match` (§4.5).  The raw matched
collection (produced by the variant-specific `get_items`) is passed in as
`items`; the three optional arguments are the per-call overrides.
"if `exact` is set, the count must equal it exactly, else fail with
`SelectorError` ... Else if `min` is set, count must be ≥ `min`, else fail.
Else if `max` is set, count must be ≤ `max`, else fail.  On success, return
the full matched sequence." -/
def Selector.match' {α : Type} (sel : Selector) (items : List α)
    (onum omin omax : Option Nat) : Except SelectorError (List α) :=
  let n := items.length
  match effectiveBound onum sel.num_items with
  | some k =>
    if n = k then Except.ok items else Except.error ⟨CardinalityKind.exact, k, n⟩
  | none =>
    match effectiveBound omin sel.min_items with
    | some k =>
      if k ≤ n then Except.ok items else Except.error ⟨CardinalityKind.minimum, k, n⟩
    | none =>
      match effectiveBound omax sel.max_items with
      | some k =>
        if n ≤ k then Except.ok items else Except.error ⟨CardinalityKind.maximum, k, n⟩
      | none => Except.ok items

/-- Modelled from the spec: a selector is a "stateless-per-call query
object"; a call returns the matched sequence (or error) together with the
selector's stored state after the call, which the spec fixes as unchanged. -/
def Selector.matchCall {α : Type} (sel : Selector) (items : List α)
    (onum omin omax : Option Nat) : Except SelectorError (List α) × Selector :=
  (sel.match' items onum omin omax, sel)

/-! ## Page fetch lifecycle (modelled from the spec, §4.1–§4.3) -/

/-- A resolved fetch target; a bare string/URL is wrapped into this
canonical form (the `URL` source of `sources.py`, missing from the
snapshot). -/
structure Source where
  url : String
deriving Repr, DecidableEq

/-- The transport collaborator's error type, carrying "at least
`status_code`, `target`, and a body/text payload" (spec §6); matches the
`Error` dataclass used in `tests/test_page_base.py`. -/
structure HTTPError where
  status_code : Nat
  url : String
  text : String
deriving Repr, DecidableEq

/-- Raw fetched payload. -/
abbrev Response := String

/-- Extraction results (dependency results bound onto a page). -/
abbrev Value := String

/-- The transport collaborator: one request per fetch, either a response or
a distinguishable transport error. -/
abbrev Scraper := String → Except HTTPError Response

/-- The functional mock transport of `tests/test_page_base.py`
(`DummyScraper.request`). -/
def DummyScraper : Scraper := fun url =>
  if url = "error" then Except.error ⟨400, "error", "error response"⟩
  else Except.ok ("dummy response for " ++ url)

/-- Observable events of one page's `_fetch_data` run, in order. -/
inductive Event where
  | depBound (name : String) (v : Value)
  | responseBound (r : Response)
  | postprocessCalled
  | errorHookCalled (e : HTTPError)
deriving Repr, DecidableEq

/-- Modelled from the spec: a `Page` as configured by a page type and its
construction arguments (`pages.py` is missing from the snapshot).
`source` is the explicit source given at construction (already wrapped);
`get_source_from_input` is the source-derivation hook, `some s` when the
page type defines it and `s` is what it returns on this page's input;
`input_url` is the url-like attribute exposed by the input, when any;
`dependencies` maps declared names to already-constructed pages;
`process_error_response` records whether the page type defines the
error-handling hook; `process_page` is the page's extraction logic, a
function of the fetched response and the bound dependency results. -/
inductive Page where
  | mk
    (source : Option Source)
    (get_source_from_input : Option Source)
    (input_url : Option String)
    (dependencies : List (String × Page))
    (process_error_response : Bool)
    (process_page : Option Response → List (String × Value) → Value)

def Page.dependencies : Page → List (String × Page)
  | .mk _ _ _ deps _ _ => deps

def Page.process_page : Page → (Option Response → List (String × Value) → Value)
  | .mk _ _ _ _ _ pp => pp

/-- Modelled from the spec: source resolution (§4.1).  Explicit source
first; else the source-derivation hook; else a `Source` synthesized from
the input's url-like attribute; else unresolved. -/
def Page.resolveSource : Page → Option Source
  | .mk src hook iurl _ _ _ =>
    match src with
    | some s => some s
    | none =>
      match hook with
      | some s => some s
      | none => Option.map Source.mk iurl

/-- Errors a `_fetch_data` run can surface to its caller. -/
inductive FetchError where
  | missingSource
  | transport (e : HTTPError)
deriving Repr, DecidableEq

/-- Page state after a completed `_fetch_data`: the resolved source, the
dependency results bound by declared name, the bound response (`none` when
a transport error was consumed by the error hook), and the ordered event
trace. -/
structure FetchResult where
  source : Source
  attrs : List (String × Value)
  response : Option Response
  events : List Event
deriving Repr, DecidableEq

/-- Events that bind the dependency results onto the page. -/
def depEvents (attrs : List (String × Value)) : List Event :=
  attrs.map fun nv => Event.depBound nv.1 nv.2

mutual

/-- Modelled from the spec: `Page._fetch_data` (§4.1–§4.3).  Resolve the
source (else `MissingSourceError`); resolve every declared dependency
depth-first, binding each dependency's extracted result under its declared
name; invoke the transport once; on success bind `response` then run the
postprocessing hook; on a transport error run the error hook when defined
(skipping postprocessing) and otherwise propagate the error unchanged. -/
def Page.fetch_data (scraper : Scraper) : Page → Except FetchError FetchResult
  | .mk src hook iurl deps errHook pp =>
    match Page.resolveSource (.mk src hook iurl deps errHook pp) with
    | none => Except.error FetchError.missingSource
    | some s =>
      match Page.fetchDeps scraper deps with
      | Except.error e => Except.error e
      | Except.ok attrs =>
        match scraper s.url with
        | Except.ok resp =>
          Except.ok ⟨s, attrs, some resp,
            depEvents attrs ++ [Event.responseBound resp, Event.postprocessCalled]⟩
        | Except.error e =>
          if errHook then
            Except.ok ⟨s, attrs, none, depEvents attrs ++ [Event.errorHookCalled e]⟩
          else Except.error (FetchError.transport e)

/-- Modelled from the spec: dependency resolution (§4.2), in declaration
order, each dependency fully fetched and extracted before the next; a
dependency failure propagates unchanged. -/
def Page.fetchDeps (scraper : Scraper) :
    List (String × Page) → Except FetchError (List (String × Value))
  | [] => Except.ok []
  | (n, d) :: rest =>
    match Page.fetch_data scraper d with
    | Except.error e => Except.error e
    | Except.ok r =>
      match Page.fetchDeps scraper rest with
      | Except.error e => Except.error e
      | Except.ok vs => Except.ok ((n, d.process_page r.response r.attrs) :: vs)

end

/-- The `DependencyPage` of `test_fetch_data_dependencies`: its extraction
returns `"dependency fulfilled"`. -/
def DependencyPage : Page :=
  .mk (some ⟨"https://example.com"⟩) none none [] false (fun _ _ => "dependency fulfilled")

/-- The `DependencyTestPage` of `test_fetch_data_dependencies`: it declares
`DependencyPage` under the name `a_dependency`. -/
def DependencyTestPage : Page :=
  .mk (some ⟨"https://example.com"⟩) none none [("a_dependency", DependencyPage)] false
    (fun _ _ => "")

/-! ## CLI `test` command loop (translated from `src/spatula/cli.py`,
lines 166–201) and the Workflow execution loop (modelled from the spec,
§4.6; `workflow.py` is missing from the snapshot).

One pagination step — construct `Cls(fake_input, source=source)`, call
`page._fetch_data(s)`, `page.process_page()` and `page.get_next_source()`
— is abstracted as a pure step function `σ → ProcessResult × Option σ`
over an abstract source type `σ` (`none` = no source supplied). -/

/-- The result of `process_page`: a single value, or a generator declaring a
multi-item list page (`isinstance(result, typing.Generator)`). -/
inductive ProcessResult where
  | single (v : Value)
  | generator (items : List Value)
deriving Repr, DecidableEq

/-- One fetch-extract-next step of a page definition. -/
abbrev PageStep (σ : Type) := Option σ → ProcessResult × Option σ

/-- Lines the `test` command prints: a numbered item
(`click.echo(click.style(f"{num_items}: ", ...) + _display(item))`), a
single displayed result, the "paginating for ..." notice, or the
"pagination disabled ..." notice. -/
inductive OutLine where
  | item (idx : Nat) (v : Value)
  | plain (v : Value)
  | paginating
  | paginationDisabled
deriving Repr, DecidableEq

/-- The numbered item lines a generator result prints, continuing from the
running counter `n` (`num_items += 1` before each echo). -/
def numberItems (n : Nat) : List Value → List OutLine
  | [] => []
  | v :: vs => OutLine.item (n + 1) v :: numberItems (n + 1) vs

/-- Whether a printed line is a numbered item line. -/
def OutLine.isItem : OutLine → Bool
  | OutLine.item _ _ => true
  | _ => false

/-- The item numbers printed, in order. -/
def itemIndices (ls : List OutLine) : List Nat :=
  ls.filterMap fun l =>
    match l with
    | OutLine.item i _ => some i
    | _ => none

/-- The `while source or once` loop of the `test` command (`cli.py` lines
166–201), returning the printed lines.  `once` starts `True` and is set
`False` on entering the body; `num_items` is the running item counter;
`fuel` bounds the number of iterations modelled (the Python loop may not
terminate for a page definition that always yields a next source). -/
def testLoop {σ : Type} (defn : PageStep σ) (pagination : Bool) :
    Option σ → Bool → Nat → Nat → List OutLine
  | _, _, _, 0 => []
  | source, once, num_items, fuel + 1 =>
    if source.isSome || once then
      let (result, next) := defn source
      let lines :=
        match result with
        | ProcessResult.single v => [OutLine.plain v]
        | ProcessResult.generator items => numberItems num_items items
      let n :=
        match result with
        | ProcessResult.single _ => num_items
        | ProcessResult.generator items => num_items + items.length
      match next with
      | none => lines
      | some s =>
        if pagination then
          lines ++ [OutLine.paginating] ++ testLoop defn pagination (some s) false n fuel
        else
          lines ++ [OutLine.paginationDisabled]
    else []

/-- Modelled from the spec: `Workflow.execute` (§4.6) — drive the root
page, persist each extracted item, and "when a next source is present,
construct a fresh page instance of the same definition bound to that
source and repeat"; terminate when no next source is produced and return
the persisted items (the Workflow reports their total count).  `fuel`
bounds the modelled iterations; `none` marks fuel exhaustion. -/
def workflowExecute {σ : Type} (defn : PageStep σ) :
    Option σ → Nat → Option (List Value)
  | _, 0 => none
  | source, fuel + 1 =>
    let (result, next) := defn source
    let items :=
      match result with
      | ProcessResult.single v => [v]
      | ProcessResult.generator l => l
    match next with
    | none => some items
    | some s => Option.map (items ++ ·) (workflowExecute defn (some s) fuel)

/-- A pagination chain of length `N`: the page at index `i` (an absent
initial source reads as index `0`) yields one item and the next source
`i + 1`, except the last (`i + 1 = N`), which yields none. -/
def chainStep (N : Nat) : PageStep Nat := fun src =>
  let i := src.getD 0
  (ProcessResult.generator [toString i], if i + 1 < N then some (i + 1) else none)

/-! ## CLI `scrape` output-directory handling (translated from
`src/spatula/cli.py`, lines 229–237: the branch for an explicit
`--output-dir`). -/

/-- The explicit output directory as the `scrape` command sees it:
whether it already exists, and the entry names inside it. -/
structure OutputDir where
  present : Bool
  entries : List String
deriving Repr, DecidableEq

/-- Whether a directory entry is hidden from the glob pattern `*`: Python's
`glob` does not match names whose first character is a dot. -/
def isHiddenEntry (e : String) : Bool :=
  match e.data with
  | [] => false
  | c :: _ => c = '.'

/-- Python `glob.glob(output_dir + "/*")`: the pattern `*` matches every entry
except those whose name starts with a dot (Python `glob` semantics). -/
def globStar (entries : List String) : List String :=
  entries.filter fun e => ¬ isHiddenEntry e

/-- Outcome of the `scrape` command on an explicit output directory:
either `sys.exit(1)` before the workflow runs, or the workflow executed
(with the items it persisted). -/
inductive ScrapeOutcome where
  | fatalExit (code : Nat)
  | ran (persisted : List Value)
deriving Repr, DecidableEq

/-- The explicit-`--output-dir` branch of `scrape` (`cli.py` 229–236):
`os.makedirs(output_dir)` raises `FileExistsError` exactly when the
directory already exists; then if `glob.glob(output_dir + "/*")` is
non-empty the command prints an error and exits with status 1; otherwise
`workflow.execute` runs. -/
def scrapeExplicit (dir : OutputDir) (runWorkflow : Unit → List Value) : ScrapeOutcome :=
  if dir.present then
    if (globStar dir.entries).length ≠ 0 then ScrapeOutcome.fatalExit 1
    else ScrapeOutcome.ran (runWorkflow ())
  else ScrapeOutcome.ran (runWorkflow ())

/-! ## Theorems about the Selector cardinality contract -/

/-- Any `match'` call either returns the full matched sequence unchanged or
fails with a `SelectorError`. -/
theorem match_ok_or_error {α : Type} (sel : Selector) (items : List α)
    (onum omin omax : Option Nat) :
    sel.match' items onum omin omax = Except.ok items ∨
      ∃ e, sel.match' items onum omin omax = Except.error e := by
  unfold Selector.match'
  dsimp only
  split
  · split <;> simp
  · split
    · split <;> simp
    · split
      · split <;> simp
      · simp

/-- Claim C1: `Selector.match` enforces its cardinality contract: with an
effective exact count set, it succeeds if and only if the number of matches
equals that count, otherwise it raises `SelectorError`; with only `min`
set, the count must be ≥ `min`; with only `max` set, the count must be ≤
`max`; and on success it returns the full matched sequence in order, never
truncated or padded. -/
theorem selector_match_cardinality {α : Type} (sel : Selector) (items : List α)
    (onum omin omax : Option Nat) :
    (∀ l, sel.match' items onum omin omax = Except.ok l → l = items)
  ∧ (∀ k, effectiveBound onum sel.num_items = some k →
      (sel.match' items onum omin omax = Except.ok items ↔ items.length = k))
  ∧ (∀ k, effectiveBound onum sel.num_items = none →
      effectiveBound omin sel.min_items = some k →
      effectiveBound omax sel.max_items = none →
      (sel.match' items onum omin omax = Except.ok items ↔ k ≤ items.length))
  ∧ (∀ k, effectiveBound onum sel.num_items = none →
      effectiveBound omin sel.min_items = none →
      effectiveBound omax sel.max_items = some k →
      (sel.match' items onum omin omax = Except.ok items ↔ items.length ≤ k))
  ∧ (sel.match' items onum omin omax ≠ Except.ok items →
      ∃ e, sel.match' items onum omin omax = Except.error e) := by
  refine ⟨?_, ?_, ?_, ?_, ?_⟩
  · intro l h
    rcases match_ok_or_error sel items onum omin omax with h' | ⟨e, h'⟩
    · rw [h'] at h; exact (Except.ok.inj h).symm
    · rw [h'] at h; exact absurd h (by simp)
  · intro k hk
    unfold Selector.match'
    rw [hk]
    constructor
    · intro h
      by_contra hne
      simp [hne] at h
    · intro h; simp [h]
  · intro k hn hm _
    unfold Selector.match'
    rw [hn, hm]
    constructor
    · intro h
      by_contra hne
      simp [hne] at h
    · intro h; simp [h]
  · intro k hn hm hx
    unfold Selector.match'
    rw [hn, hm, hx]
    constructor
    · intro h
      by_contra hne
      simp [hne] at h
    · intro h; simp [h]
  · intro h
    rcases match_ok_or_error sel items onum omin omax with h' | h'
    · exact absurd h' h
    · exact h'

/-- Witness for `selector_match_cardinality`, reproducing `test_num_items`:
a selector configured with `num_items=3` accepts exactly three matches and
returns them all, in order. -/
theorem selector_match_cardinality_witness :
    (Selector.mk (some 3) none none).match' ([0, 1, 2] : List Nat) none none none =
      Except.ok [0, 1, 2] :=
  ((selector_match_cardinality (Selector.mk (some 3) none none)
    ([0, 1, 2] : List Nat) none none none).2.1 3 rfl).mpr rfl

/-- Claim C7: the effective exact/min/max bound of a `match` call is the
per-call override when given and otherwise the configured default, and a
per-call override leaves the selector's stored defaults unchanged: a
subsequent call without an override is validated against the originally
configured bound.  The last two conjuncts reproduce `test_min_items`: with
configured `min_items=3`, an override `min_items=2` makes two matches
succeed, yet a following plain call still fails two matches against the
stored minimum of 3. -/
theorem selector_override_no_mutation {α : Type} (sel : Selector)
    (items later : List α) (onum omin omax : Option Nat) :
    (sel.match' items onum omin omax =
      (Selector.mk (effectiveBound onum sel.num_items)
        (effectiveBound omin sel.min_items)
        (effectiveBound omax sel.max_items)).match' items none none none)
  ∧ ((sel.matchCall items onum omin omax).2 = sel)
  ∧ ((sel.matchCall items onum omin omax).2.match' later none none none =
      sel.match' later none none none)
  ∧ ((Selector.mk none (some 3) none).matchCall ([0, 1] : List Nat) none (some 2) none =
      (Except.ok [0, 1], Selector.mk none (some 3) none))
  ∧ (((Selector.mk none (some 3) none).matchCall ([0, 1] : List Nat) none (some 2) none).2.match'
      ([0, 1] : List Nat) none none none =
      Except.error ⟨CardinalityKind.minimum, 3, 2⟩) :=
  ⟨rfl, rfl, rfl, rfl, rfl⟩

/-! ## Theorems about the Page fetch lifecycle -/

/-- Unfolding `_fetch_data` once the source is resolved. -/
theorem fetch_data_resolved (scraper : Scraper) (src hook : Option Source)
    (iurl : Option String) (deps : List (String × Page)) (errHook : Bool)
    (pp : Option Response → List (String × Value) → Value) (s : Source)
    (hs : Page.resolveSource (.mk src hook iurl deps errHook pp) = some s) :
    Page.fetch_data scraper (.mk src hook iurl deps errHook pp) =
      match Page.fetchDeps scraper deps with
      | Except.error e => Except.error e
      | Except.ok attrs =>
        match scraper s.url with
        | Except.ok resp =>
          Except.ok ⟨s, attrs, some resp,
            depEvents attrs ++ [Event.responseBound resp, Event.postprocessCalled]⟩
        | Except.error e =>
          if errHook then
            Except.ok ⟨s, attrs, none, depEvents attrs ++ [Event.errorHookCalled e]⟩
          else Except.error (FetchError.transport e) := by
  unfold Page.fetch_data
  rw [hs]

/-- Claim C2: a `Page` constructed with no explicit source, no
`get_source_from_input` hook and no url-like attribute on its input fails
`_fetch_data` with `MissingSourceError`; the error is what the caller
receives, and nothing in the lifecycle retries the fetch. -/
theorem page_missing_source_error (scraper : Scraper)
    (deps : List (String × Page)) (errHook : Bool)
    (pp : Option Response → List (String × Value) → Value) :
    Page.fetch_data scraper (.mk none none none deps errHook pp) =
      Except.error FetchError.missingSource := by
  unfold Page.fetch_data
  rfl

/-- Claim C3: on a transport error during fetch, a page defining
`process_error_response` has that hook invoked with the error and the
postprocessing hook is never invoked; a page without the hook propagates
the transport error to the caller unchanged. -/
theorem page_transport_error_dispatch (scraper : Scraper)
    (src hook : Option Source) (iurl : Option String)
    (deps : List (String × Page)) (errHook : Bool)
    (pp : Option Response → List (String × Value) → Value)
    (s : Source) (attrs : List (String × Value)) (e : HTTPError)
    (hs : Page.resolveSource (.mk src hook iurl deps errHook pp) = some s)
    (hd : Page.fetchDeps scraper deps = Except.ok attrs)
    (he : scraper s.url = Except.error e) :
    (errHook = true →
      Page.fetch_data scraper (.mk src hook iurl deps errHook pp) =
        Except.ok ⟨s, attrs, none, depEvents attrs ++ [Event.errorHookCalled e]⟩ ∧
      Event.errorHookCalled e ∈ depEvents attrs ++ [Event.errorHookCalled e] ∧
      Event.postprocessCalled ∉ depEvents attrs ++ [Event.errorHookCalled e])
  ∧ (errHook = false →
      Page.fetch_data scraper (.mk src hook iurl deps errHook pp) =
        Except.error (FetchError.transport e)) := by
  rw [fetch_data_resolved scraper src hook iurl deps errHook pp s hs, hd, he]
  constructor
  · intro hb
    subst hb
    refine ⟨rfl, by simp, ?_⟩
    simp [depEvents]
  · intro hb
    subst hb
    rfl

/-- Witness for `page_transport_error_dispatch`, reproducing
`test_fetch_data_handle_error_response`: the `ErrorPage` fetched from the
source `"error"` through `DummyScraper` has its error hook consume the
transport error and never reaches postprocessing. -/
theorem page_transport_error_dispatch_witness :
    Page.fetch_data DummyScraper (.mk (some ⟨"error"⟩) none none [] true (fun _ _ => "")) =
      Except.ok ⟨⟨"error"⟩, [], none,
        [Event.errorHookCalled ⟨400, "error", "error response"⟩]⟩ :=
  ((page_transport_error_dispatch DummyScraper (some ⟨"error"⟩) none none [] true
    (fun _ _ => "") ⟨"error"⟩ [] ⟨400, "error", "error response"⟩ rfl rfl
    rfl).1 rfl).1

/-- Claim C6: on a successful fetch the `response` attribute is bound to
exactly what the transport returned, and the postprocessing hook runs
exactly once, after `response` is bound (the trace ends with the response
binding followed by the postprocess call, and no earlier event is a
postprocess call). -/
theorem page_response_then_postprocess (scraper : Scraper)
    (src hook : Option Source) (iurl : Option String)
    (deps : List (String × Page)) (errHook : Bool)
    (pp : Option Response → List (String × Value) → Value)
    (s : Source) (attrs : List (String × Value)) (resp : Response)
    (hs : Page.resolveSource (.mk src hook iurl deps errHook pp) = some s)
    (hd : Page.fetchDeps scraper deps = Except.ok attrs)
    (hf : scraper s.url = Except.ok resp) :
    Page.fetch_data scraper (.mk src hook iurl deps errHook pp) =
      Except.ok ⟨s, attrs, some resp,
        depEvents attrs ++ [Event.responseBound resp, Event.postprocessCalled]⟩
  ∧ Event.postprocessCalled ∉ depEvents attrs
  ∧ List.count Event.postprocessCalled
      (depEvents attrs ++ [Event.responseBound resp, Event.postprocessCalled]) = 1 := by
  rw [fetch_data_resolved scraper src hook iurl deps errHook pp s hs, hd, hf]
  refine ⟨rfl, ?_, ?_⟩
  · simp [depEvents]
  · have hz : List.count Event.postprocessCalled (depEvents attrs) = 0 := by
      rw [List.count_eq_zero]
      simp [depEvents]
    simp [List.count_append, hz]

/-- Witness for `page_response_then_postprocess`, reproducing
`test_fetch_data_sets_response` and `test_fetch_data_postprocess`: fetching
`https://example.com` through `DummyScraper` binds the dummy response and
then postprocesses once. -/
theorem page_response_then_postprocess_witness :
    Page.fetch_data DummyScraper
      (.mk (some ⟨"https://example.com"⟩) none none [] false (fun _ _ => "")) =
      Except.ok ⟨⟨"https://example.com"⟩, [],
        some "dummy response for https://example.com",
        [Event.responseBound "dummy response for https://example.com",
         Event.postprocessCalled]⟩ :=
  (page_response_then_postprocess DummyScraper (some ⟨"https://example.com"⟩) none none []
    false (fun _ _ => "") ⟨"https://example.com"⟩ []
    "dummy response for https://example.com" rfl rfl rfl).1

/-- Dependency resolution binds, at each declared position, exactly the
result of that dependency's own successful fetch-and-extract. -/
theorem fetchDeps_get (scraper : Scraper) (deps : List (String × Page)) :
    ∀ (vs : List (String × Value)) (i : Nat) (n : String) (d : Page),
      Page.fetchDeps scraper deps = Except.ok vs →
      List.get? deps i = some (n, d) →
      ∃ rd, Page.fetch_data scraper d = Except.ok rd ∧
        List.get? vs i = some (n, d.process_page rd.response rd.attrs) := by
  induction deps with
  | nil =>
    intro vs i n d _ hi
    simp at hi
  | cons hd tl ih =>
    intro vs i n d h hi
    obtain ⟨m, p⟩ := hd
    unfold Page.fetchDeps at h
    cases hp : Page.fetch_data scraper p with
    | error e => rw [hp] at h; exact absurd h (by simp)
    | ok r =>
      rw [hp] at h
      cases hr : Page.fetchDeps scraper tl with
      | error e => rw [hr] at h; exact absurd h (by simp)
      | ok ws =>
        rw [hr] at h
        have hv : (m, p.process_page r.response r.attrs) :: ws = vs := by
          exact Except.ok.inj h
        subst hv
        cases i with
        | zero =>
          simp at hi
          obtain ⟨hn, hd⟩ := hi
          subst hn; subst hd
          exact ⟨r, hp, by simp⟩
        | succ j =>
          simp only [List.get?_cons_succ] at hi ⊢
          exact ih ws j n d hr hi

/-- Claim C4: for a page declaring a dependency under a name, after the
depending page's `_fetch_data` succeeds, the dependency's result is bound
at the declared position under the declared name and equals exactly what
the dependency's own extraction (`process_page`, applied to the
dependency's own fetched state) returned. -/
theorem page_dependency_result_binding (scraper : Scraper)
    (src hook : Option Source) (iurl : Option String)
    (deps : List (String × Page)) (errHook : Bool)
    (pp : Option Response → List (String × Value) → Value)
    (r rd : FetchResult) (i : Nat) (n : String) (d : Page)
    (h : Page.fetch_data scraper (.mk src hook iurl deps errHook pp) = Except.ok r)
    (hi : List.get? deps i = some (n, d))
    (hrd : Page.fetch_data scraper d = Except.ok rd) :
    List.get? r.attrs i = some (n, d.process_page rd.response rd.attrs) := by
  have hattrs : Page.fetchDeps scraper deps = Except.ok r.attrs := by
    cases hs : Page.resolveSource (.mk src hook iurl deps errHook pp) with
    | none =>
      unfold Page.fetch_data at h
      rw [hs] at h
      exact absurd h (by simp)
    | some s =>
      rw [fetch_data_resolved scraper src hook iurl deps errHook pp s hs] at h
      cases hdeps : Page.fetchDeps scraper deps with
      | error e => rw [hdeps] at h; exact absurd h (by simp)
      | ok attrs =>
        rw [hdeps] at h
        cases hf : scraper s.url with
        | ok resp =>
          rw [hf] at h
          have hre := Except.ok.inj h
          subst hre
          rfl
        | error e =>
          rw [hf] at h
          cases errHook with
          | true =>
            simp at h
            subst h
            rfl
          | false => exact absurd h (by simp)
  obtain ⟨rd', hrd', hv⟩ :=
    fetchDeps_get scraper deps r.attrs i n d hattrs hi
  rw [hrd] at hrd'
  rw [← Except.ok.inj hrd'] at hv
  exact hv

/-- Witness for `page_dependency_result_binding`, reproducing
`test_fetch_data_dependencies`: after `DependencyTestPage` fetches through
`DummyScraper`, `a_dependency` is bound to `"dependency fulfilled"`. -/
theorem page_dependency_result_binding_witness :
    List.get? (FetchResult.attrs ⟨⟨"https://example.com"⟩,
        [("a_dependency", "dependency fulfilled")],
        some "dummy response for https://example.com",
        [Event.depBound "a_dependency" "dependency fulfilled",
         Event.responseBound "dummy response for https://example.com",
         Event.postprocessCalled]⟩) 0 =
      some ("a_dependency",
        DependencyPage.process_page
          (FetchResult.response ⟨⟨"https://example.com"⟩, [],
            some "dummy response for https://example.com",
            [Event.responseBound "dummy response for https://example.com",
             Event.postprocessCalled]⟩)
          (FetchResult.attrs ⟨⟨"https://example.com"⟩, [],
            some "dummy response for https://example.com",
            [Event.responseBound "dummy response for https://example.com",
             Event.postprocessCalled]⟩)) :=
  page_dependency_result_binding DummyScraper (some ⟨"https://example.com"⟩) none none
    [("a_dependency", DependencyPage)] false (fun _ _ => "") _ _ 0 "a_dependency"
    DependencyPage rfl rfl rfl

/-- Claim C5: source-resolution precedence for a page with no explicit
source: a defined `get_source_from_input` hook's return value is used
verbatim, taking precedence over the url-attribute fallback; with no hook,
an input exposing a url-like attribute resolves to a canonical `Source`
whose target equals that attribute's value, and a successful fetch records
that source on the page. -/
theorem page_source_resolution_precedence (scraper : Scraper)
    (iurl : Option String) (deps : List (String × Page)) (errHook : Bool)
    (pp : Option Response → List (String × Value) → Value)
    (s : Source) (u : String) (r : FetchResult) :
    (Page.resolveSource (.mk none (some s) iurl deps errHook pp) = some s)
  ∧ (Page.resolveSource (.mk none none (some u) deps errHook pp) = some (Source.mk u))
  ∧ (Page.fetch_data scraper (.mk none none (some u) deps errHook pp) = Except.ok r →
      r.source = Source.mk u ∧ r.source.url = u) := by
  refine ⟨rfl, rfl, ?_⟩
  intro h
  rw [fetch_data_resolved scraper none none (some u) deps errHook pp (Source.mk u) rfl] at h
  cases hdeps : Page.fetchDeps scraper deps with
  | error e => rw [hdeps] at h; exact absurd h (by simp)
  | ok attrs =>
    rw [hdeps] at h
    cases hf : scraper (Source.mk u).url with
    | ok resp =>
      rw [hf] at h
      have hre := Except.ok.inj h
      subst hre
      exact ⟨rfl, rfl⟩
    | error e =>
      rw [hf] at h
      cases errHook with
      | true =>
        simp at h
        subst h
        exact ⟨rfl, rfl⟩
      | false => exact absurd h (by simp)

/-- Witness for `page_source_resolution_precedence`, reproducing
`test_fetch_data_get_source_from_input_url_default`: an input exposing
`url = "https://example.com"` resolves to that URL and the fetched page
records it as its source. -/
theorem page_source_resolution_precedence_witness :
    (Page.resolveSource (.mk none (some ⟨"https://hook.example.com"⟩)
        (some "https://example.com") [] false (fun _ _ => "")) =
      some ⟨"https://hook.example.com"⟩)
  ∧ (FetchResult.source ⟨⟨"https://example.com"⟩, [],
        some "dummy response for https://example.com",
        [Event.responseBound "dummy response for https://example.com",
         Event.postprocessCalled]⟩ = Source.mk "https://example.com") :=
  ⟨(page_source_resolution_precedence DummyScraper (some "https://example.com") [] false
      (fun _ _ => "") ⟨"https://hook.example.com"⟩ "https://example.com"
      ⟨⟨"https://example.com"⟩, [], some "dummy response for https://example.com",
        [Event.responseBound "dummy response for https://example.com",
         Event.postprocessCalled]⟩).1,
   ((page_source_resolution_precedence DummyScraper (some "https://example.com") [] false
      (fun _ _ => "") ⟨"https://hook.example.com"⟩ "https://example.com"
      ⟨⟨"https://example.com"⟩, [], some "dummy response for https://example.com",
        [Event.responseBound "dummy response for https://example.com",
         Event.postprocessCalled]⟩).2.2 rfl).1⟩

/-! ## Theorems about the Workflow loop and the CLI entry points -/

/-- The function `itemIndices` distributes over concatenation of printed lines. -/
theorem itemIndices_append (a b : List OutLine) :
    itemIndices (a ++ b) = itemIndices a ++ itemIndices b := by
  simp [itemIndices]

/-- The numbered lines printed for a generator result continue the running
counter: starting from `n`, the printed numbers are `n+1, …, n+len`. -/
theorem itemIndices_numberItems : ∀ (vs : List Value) (n : Nat),
    itemIndices (numberItems n vs) = List.range' (n + 1) vs.length
  | [], _ => rfl
  | v :: vs, n => by
    show (n + 1) :: itemIndices (numberItems (n + 1) vs) =
      List.range' (n + 1) (vs.length + 1)
    rw [List.range'_succ, itemIndices_numberItems vs (n + 1)]

/-- Whatever the page definition does, the item numbers the `test` loop
prints starting from counter `n` form the consecutive run `n+1, …, n+k`. -/
theorem testLoop_indices {σ : Type} (defn : PageStep σ) (pag : Bool) :
    ∀ (f : Nat) (src : Option σ) (once : Bool) (n : Nat),
      ∃ k, itemIndices (testLoop defn pag src once n f) = List.range' (n + 1) k := by
  intro f
  induction f with
  | zero => intro src once n; exact ⟨0, rfl⟩
  | succ f ih =>
    intro src once n
    unfold testLoop
    by_cases hc : (src.isSome || once) = true
    · rw [if_pos hc]
      rcases hval : defn src with ⟨result, next⟩
      dsimp only
      cases result with
      | single v =>
        cases next with
        | none => exact ⟨0, rfl⟩
        | some s =>
          cases pag with
          | true =>
            obtain ⟨k, hk⟩ := ih (some s) false n
            refine ⟨k, ?_⟩
            dsimp only
            rw [if_pos rfl]
            rw [itemIndices_append, itemIndices_append, hk]
            rfl
          | false => exact ⟨0, rfl⟩
      | generator items =>
        cases next with
        | none => exact ⟨items.length, itemIndices_numberItems items n⟩
        | some s =>
          cases pag with
          | true =>
            obtain ⟨k, hk⟩ := ih (some s) false (n + items.length)
            refine ⟨k + items.length, ?_⟩
            dsimp only
            rw [if_pos rfl]
            rw [itemIndices_append, itemIndices_append, itemIndices_numberItems, hk]
            have h1 : itemIndices [OutLine.paginating] = [] := rfl
            rw [h1, List.append_nil]
            rw [show n + items.length + 1 = n + 1 + items.length by omega]
            exact List.range'_append_1 (n + 1) items.length k
          | false =>
            refine ⟨items.length, ?_⟩
            dsimp only
            rw [if_neg Bool.false_ne_true]
            rw [itemIndices_append, itemIndices_numberItems]
            simp [itemIndices]
    · rw [if_neg hc]
      exact ⟨0, rfl⟩

/-- Running the modelled `Workflow.execute` from step `i` of an
`N`-step pagination chain persists exactly `N - i` items. -/
theorem chain_run (N : Nat) :
    ∀ (fuel i : Nat), i < N → N - i ≤ fuel →
      ∃ out, workflowExecute (chainStep N) (some i) fuel = some out ∧
        out.length = N - i := by
  intro fuel
  induction fuel with
  | zero => intro i hi hf; omega
  | succ f ih =>
    intro i hi hf
    unfold workflowExecute
    have hstep : chainStep N (some i) =
        (ProcessResult.generator [toString i],
          if i + 1 < N then some (i + 1) else none) := rfl
    rw [hstep]
    dsimp only
    by_cases h2 : i + 1 < N
    · rw [if_pos h2]
      dsimp only
      obtain ⟨out, ho, hl⟩ := ih (i + 1) h2 (by omega)
      rw [ho]
      refine ⟨toString i :: out, rfl, ?_⟩
      simp only [List.length_cons, hl]
      omega
    · rw [if_neg h2]
      dsimp only
      refine ⟨[toString i], rfl, ?_⟩
      simp only [List.length_singleton]
      omega

/-- Claim C8: a pagination chain of length `N` (each page yielding one item
and a next source, except the last) run through `Workflow.execute`
persists exactly `N` items — the loop terminating when no next source is
produced — and the CLI `test` command with pagination disabled halts after
the first page's items regardless of `N`. -/
theorem workflow_pagination_chain (N fuel : Nat) (h1 : 1 ≤ N) (hf : N ≤ fuel) :
    (∃ out, workflowExecute (chainStep N) none fuel = some out ∧ out.length = N)
  ∧ ((testLoop (chainStep N) false none true 0 fuel).filter OutLine.isItem =
      [OutLine.item 1 (toString 0)]) := by
  obtain ⟨f, rfl⟩ : ∃ f, fuel = f + 1 := ⟨fuel - 1, by omega⟩
  have hstep : chainStep N none =
      (ProcessResult.generator [toString 0],
        if 0 + 1 < N then some (0 + 1) else none) := rfl
  constructor
  · unfold workflowExecute
    rw [hstep]
    dsimp only
    by_cases h2 : 0 + 1 < N
    · rw [if_pos h2]
      dsimp only
      obtain ⟨out, ho, hl⟩ := chain_run N f 1 h2 (by omega)
      rw [show (0 + 1) = 1 from rfl] at *
      rw [ho]
      refine ⟨toString 0 :: out, rfl, ?_⟩
      simp only [List.length_cons, hl]
      omega
    · rw [if_neg h2]
      dsimp only
      refine ⟨[toString 0], rfl, ?_⟩
      simp only [List.length_singleton]
      omega
  · unfold testLoop
    rw [hstep]
    dsimp only
    by_cases h2 : 0 + 1 < N
    · rw [if_pos h2]
      rfl
    · rw [if_neg h2]
      rfl

/-- Witness for `workflow_pagination_chain` at the concrete chain length
`N = 2`: two items are persisted, and with pagination disabled the test
loop prints only the first page's single item. -/
theorem workflow_pagination_chain_witness :
    (∃ out, workflowExecute (chainStep 2) none 2 = some out ∧ out.length = 2)
  ∧ ((testLoop (chainStep 2) false none true 0 2).filter OutLine.isItem =
      [OutLine.item 1 (toString 0)]) :=
  workflow_pagination_chain 2 2 (by decide) (by decide)

/-- Claim C10: in the CLI `test` command the fetch-and-extract loop body
executes at least once even when no initial source is supplied (the `once`
flag makes the first iteration unconditional), and for list pages the item
counter accumulates across pagination steps, so the printed item numbers
over an entire paginated run are consecutive from 1 rather than restarting
at 1 on each page. -/
theorem cli_test_loop_once_and_counter {σ : Type} (defn : PageStep σ)
    (pag : Bool) (items : List Value) (fuel : Nat)
    (hd : defn none = (ProcessResult.generator items, none)) :
    (testLoop defn pag none true 0 (fuel + 1) = numberItems 0 items)
  ∧ (∀ (src : Option σ) (once : Bool) (f : Nat),
      ∃ k, itemIndices (testLoop defn pag src once 0 f) = List.range' 1 k) := by
  constructor
  · unfold testLoop
    rw [hd]
    rfl
  · intro src once f
    exact testLoop_indices defn pag f src once 0


/-- Witness for `cli_test_loop_once_and_counter` on the one-page chain:
with no source supplied at all, the single page is still fetched and its
item printed with number 1. -/
theorem cli_test_loop_once_and_counter_witness :
    testLoop (chainStep 1) true none true 0 1 = numberItems 0 [toString 0] :=
  (cli_test_loop_once_and_counter (chainStep 1) true [toString 0] 0 rfl).1

/-- Claim C9 (amended): when `scrape` is given an explicit output directory
that already exists and contains at least one entry visible to
`glob.glob(output_dir + "/*")` — that is, at least one entry whose name
does not start with a dot — the run exits with status 1 before the
workflow executes, leaving the directory's contents untouched; a directory
that is absent (freshly created), empty, or containing only dot-entries is
accepted and the workflow runs. -/
theorem scrape_output_dir_check (dir : OutputDir) (wf : Unit → List Value) :
    (dir.present = true → globStar dir.entries ≠ [] →
      scrapeExplicit dir wf = ScrapeOutcome.fatalExit 1)
  ∧ (dir.present = true → globStar dir.entries = [] →
      scrapeExplicit dir wf = ScrapeOutcome.ran (wf ()))
  ∧ (dir.present = false → scrapeExplicit dir wf = ScrapeOutcome.ran (wf ())) := by
  refine ⟨?_, ?_, ?_⟩
  · intro hp hne
    have hlen : (globStar dir.entries).length ≠ 0 := by
      simpa [List.length_eq_zero] using hne
    simp [scrapeExplicit, hp, hlen]
  · intro hp he
    simp [scrapeExplicit, hp, he]
  · intro hp
    simp [scrapeExplicit, hp]

/-- Witness for `scrape_output_dir_check`: a pre-existing directory holding
the visible entry `data.json` aborts the run with exit status 1. -/
theorem scrape_output_dir_check_witness :
    scrapeExplicit ⟨true, ["data.json"]⟩ (fun _ => []) = ScrapeOutcome.fatalExit 1 :=
  (scrape_output_dir_check ⟨true, ["data.json"]⟩ (fun _ => [])).1 rfl (by decide)

/-- Claim C9, counterexample: an explicit output directory that already
exists and is not empty — its sole entry is the dotfile `.config` — is
nevertheless accepted: `glob.glob(output_dir + "/*")` does not match names
starting with a dot, so `scrape` sees an "empty" directory and proceeds to
execute the workflow instead of exiting. -/
theorem scrape_nonempty_dir_counterexample :
    OutputDir.present ⟨true, [".config"]⟩ = true
  ∧ OutputDir.entries ⟨true, [".config"]⟩ ≠ []
  ∧ scrapeExplicit ⟨true, [".config"]⟩ (fun _ => ["item"]) =
      ScrapeOutcome.ran ["item"] := by
  refine ⟨rfl, by decide, rfl⟩

end Spatula
